import Mathlib

/-!
Verification development for the CastleLinkLive4Arduino library.

The repository ships the public header `CastleLinkLive.h`, which fixes the
constants (`MAX_ESCS`, `DATA_FRAME_CNT`, `GENERATE_THROTTLE`, the frame
identifiers including `FRAME_RESET = -1`) and the API surface (`begin` and its
overloads, `setThrottle`, `throttleArm`, `throttleDisarm`,
`attachThrottlePresenceHandler`, the two `getData` variants).  The behaviour of
the frame decoder, channel registry and throttle engine is embedded below;
where the implementation translation unit is not part of the sources, the
definitions are modelled from the specification, as noted in their doc
comments.
-/

namespace CastleLinkLive

/-- Number of hardware-supported channels (ESCs): header macro `MAX_ESCS`,
defined as 2 on the supported ATmega168/328 boards. -/
def MAX_ESCS : Nat := 2

/-- Number of data frames in one telemetry cycle, not counting the reset
frame: header macro `DATA_FRAME_CNT = 11`. -/
def DATA_FRAME_CNT : Nat := 11

/-- Header macro `GENERATE_THROTTLE = -1`: passed as the throttle pin number
to request software-generated throttle. -/
def GENERATE_THROTTLE : Int := -1

/-- Default idle/brake pulse width in microseconds (spec: default value 1000,
configurable in `CastleLinkLive_config.h`). -/
def DEFAULT_THROTTLE_MIN : Nat := 1000

/-- Default full-throttle pulse width in microseconds (spec: default value
2000, configurable in `CastleLinkLive_config.h`). -/
def DEFAULT_THROTTLE_MAX : Nat := 2000

/-- Watchdog threshold, about one second, in milliseconds (spec: throttle must
be refreshed at a rate faster than roughly 1 Hz). -/
def WATCHDOG_THRESHOLD : Nat := 1000

/-- Modulus of the free-running hardware timer: tick counts are 16-bit
unsigned values (`uint16_t ticks[...]` in the header). -/
def TIMER_WRAP : Nat := 65536

/-- Modelled from the spec: per-channel decoder state (`ChannelState` of §3).
The field `synced` is false while the decoder still awaits the first reset
marker; it models the C frame counter holding the header's sentinel
`FRAME_RESET = -1` ("used to signal the start of a data sequence").  `buf` is
the in-progress `ticks` array of `CASTLE_RAW_DATA` (length `DATA_FRAME_CNT`),
`published` the last completed raw cycle exposed to readers, `ready` the
"cycle ready" flag, `prevEdge` the previous edge timestamp. -/
structure ChState where
  synced : Bool
  frameIdx : Nat
  prevEdge : Nat
  buf : List Nat
  published : Option (List Nat)
  ready : Bool
  deriving DecidableEq

/-- Initial decoder state for a channel: unsynchronized, frame index at the
start, zeroed ticks buffer, no published cycle. -/
def chInit : ChState :=
  { synced := false, frameIdx := 0, prevEdge := 0,
    buf := List.replicate DATA_FRAME_CNT 0, published := none, ready := false }

/-- Modelled from the spec (§4.1 Frame Decoder, implementation translation
unit absent from the sources): process one already-computed edge-to-edge delta
on one channel.  A delta inside the data envelope (classifier `isData`) is
stored at `ticks[frame_index]` and the frame index is incremented; when the
index reaches `DATA_FRAME_CNT` the cycle is published, the ready flag set and
the index reset to 0.  Any delta outside the data envelope (reset marker or
malformed timing) resynchronizes: frame index to 0, in-progress cycle
discarded, no data stored.  A data delta received before the first reset
marker is ignored (decoder not yet synchronized).  The guard
`frameIdx < DATA_FRAME_CNT` realizes the spec's defensive rule that an
out-of-range index never causes a write but forces resynchronization. -/
def chDelta (isData : Nat → Bool) (c : ChState) (delta : Nat) : ChState :=
  if isData delta then
    if c.synced then
      if c.frameIdx < DATA_FRAME_CNT then
        if c.frameIdx + 1 = DATA_FRAME_CNT then
          { c with
              buf := c.buf.set c.frameIdx delta
              frameIdx := 0
              published := some (c.buf.set c.frameIdx delta)
              ready := true }
        else
          { c with buf := c.buf.set c.frameIdx delta, frameIdx := c.frameIdx + 1 }
      else
        { c with frameIdx := 0 }
    else c
  else
    { c with synced := true, frameIdx := 0 }

/-- Deliver a sequence of deltas to one channel's decoder, in arrival order. -/
def runDeltas (isData : Nat → Bool) (c : ChState) : List Nat → ChState
  | [] => c
  | d :: ds => runDeltas isData (chDelta isData c d) ds

/-- Wraparound-safe subtraction of 16-bit timer ticks (spec §9: model
timestamps as fixed-width unsigned integers with modular subtraction). -/
def wrapSub (a b : Nat) : Nat :=
  (a % TIMER_WRAP + TIMER_WRAP - b % TIMER_WRAP) % TIMER_WRAP

/-- Modelled from the spec: process one raw edge timestamp on one channel:
compute `delta = t - previous_edge` (wraparound-safe) and feed it to the
delta-level decoder, recording the new previous-edge timestamp. -/
def chEdge (isData : Nat → Bool) (c : ChState) (t : Nat) : ChState :=
  { chDelta isData c (wrapSub t c.prevEdge) with prevEdge := t % TIMER_WRAP }

theorem runDeltas_append (isData : Nat → Bool) (l1 l2 : List Nat) :
    ∀ c, runDeltas isData c (l1 ++ l2) = runDeltas isData (runDeltas isData c l1) l2 := by
  induction l1 with
  | nil => intro c; rfl
  | cons d ds ih => intro c; simp only [List.cons_append, runDeltas]; exact ih _

theorem length_buf_chDelta (isData : Nat → Bool) (c : ChState) (d : Nat) :
    (chDelta isData c d).buf.length = c.buf.length := by
  unfold chDelta
  split_ifs <;> simp

theorem frameIdx_chDelta_lt (isData : Nat → Bool) (c : ChState) (d : Nat)
    (h : c.frameIdx < DATA_FRAME_CNT) :
    (chDelta isData c d).frameIdx < DATA_FRAME_CNT := by
  unfold chDelta
  simp only [DATA_FRAME_CNT] at h ⊢
  split_ifs with h1 h2 h3
  · simp
  · simp
    omega
  · exact h
  · simp

theorem runDeltas_invariant (isData : Nat → Bool) (ds : List Nat) :
    ∀ c : ChState, c.frameIdx < DATA_FRAME_CNT → c.buf.length = DATA_FRAME_CNT →
      (runDeltas isData c ds).frameIdx < DATA_FRAME_CNT ∧
      (runDeltas isData c ds).buf.length = DATA_FRAME_CNT := by
  induction ds with
  | nil => intro c h1 h2; exact ⟨h1, h2⟩
  | cons d ds ih =>
      intro c h1 h2
      exact ih _ (frameIdx_chDelta_lt isData c d h1)
        ((length_buf_chDelta isData c d).trans h2)

theorem take_succ_set (d : Nat) :
    ∀ (l : List Nat) (k : Nat), k < l.length →
      (l.set k d).take (k + 1) = l.take k ++ [d] := by
  intro l
  induction l with
  | nil => intro k hk; simp at hk
  | cons x xs ih =>
      intro k hk
      cases k with
      | zero => simp
      | succ k =>
          simp only [List.set_cons_succ, List.take_succ_cons, List.cons_append]
          rw [ih k (by simpa using hk)]

theorem runDeltas_fill (isData : Nat → Bool) :
    ∀ (ds : List Nat) (c : ChState), c.synced = true →
      c.buf.length = DATA_FRAME_CNT → c.frameIdx + ds.length = DATA_FRAME_CNT →
      ds ≠ [] → (∀ d ∈ ds, isData d = true) →
      runDeltas isData c ds =
        { synced := true, frameIdx := 0, prevEdge := c.prevEdge,
          buf := c.buf.take c.frameIdx ++ ds,
          published := some (c.buf.take c.frameIdx ++ ds), ready := true } := by
  intro ds
  induction ds with
  | nil => intro c _ _ _ hne _; exact absurd rfl hne
  | cons d ds ih =>
      intro c hs hb hlen _ hdata
      have hd : isData d = true := hdata d (List.mem_cons_self d ds)
      have hidx : c.frameIdx < DATA_FRAME_CNT := by
        simp only [List.length_cons] at hlen; omega
      have hblt : c.frameIdx < c.buf.length := by omega
      cases ds with
      | nil =>
          simp only [List.length_cons, List.length_nil] at hlen
          have h10 : c.frameIdx + 1 = DATA_FRAME_CNT := by omega
          show chDelta isData c d = _
          unfold chDelta
          rw [if_pos hd, if_pos hs, if_pos hidx, if_pos h10]
          have hset : c.buf.set c.frameIdx d = c.buf.take c.frameIdx ++ [d] := by
            rw [List.set_eq_take_cons_drop d hblt]
            have hdrop : c.buf.drop (c.frameIdx + 1) = [] :=
              List.drop_eq_nil_of_le (by omega)
            rw [hdrop]
          rw [hset, hs]
      | cons e tl =>
          have hne2 : ¬ (c.frameIdx + 1 = DATA_FRAME_CNT) := by
            simp only [List.length_cons] at hlen; omega
          have hcd : chDelta isData c d =
              { c with buf := c.buf.set c.frameIdx d, frameIdx := c.frameIdx + 1 } := by
            unfold chDelta
            rw [if_pos hd, if_pos hs, if_pos hidx, if_neg hne2]
          have step := ih { c with buf := c.buf.set c.frameIdx d, frameIdx := c.frameIdx + 1 }
            (by simpa using hs) (by simpa using hb)
            (by
              show c.frameIdx + 1 + (e :: tl).length = DATA_FRAME_CNT
              simp only [List.length_cons] at hlen ⊢
              omega)
            (by simp) (fun x hx => hdata x (List.mem_cons_of_mem d hx))
          have htake : (c.buf.set c.frameIdx d).take (c.frameIdx + 1) =
              c.buf.take c.frameIdx ++ [d] :=
            take_succ_set d c.buf c.frameIdx hblt
          show runDeltas isData (chDelta isData c d) (e :: tl) = _
          rw [hcd, step]
          simp only [htake, List.append_assoc, List.singleton_append]

theorem chDelta_reset (isData : Nat → Bool) (c : ChState) (r : Nat)
    (h : isData r = false) :
    chDelta isData c r = { c with synced := true, frameIdx := 0 } := by
  unfold chDelta
  rw [if_neg (by simp [h])]

theorem runDeltas_reset_cycle (isData : Nat → Bool) (c : ChState) (r : Nat)
    (ds : List Nat) (hb : c.buf.length = DATA_FRAME_CNT) (hr : isData r = false)
    (hlen : ds.length = DATA_FRAME_CNT) (hdata : ∀ d ∈ ds, isData d = true) :
    runDeltas isData c (r :: ds) =
      { synced := true, frameIdx := 0, prevEdge := c.prevEdge, buf := ds,
        published := some ds, ready := true } := by
  show runDeltas isData (chDelta isData c r) ds = _
  rw [chDelta_reset isData c r hr]
  have hne : ds ≠ [] := by
    rintro rfl
    simp [DATA_FRAME_CNT] at hlen
  have hfill := runDeltas_fill isData ds { c with synced := true, frameIdx := 0 }
    (by simp) (by simpa using hb)
    (by show 0 + ds.length = DATA_FRAME_CNT; simpa using hlen) hne hdata
  rw [hfill]
  simp

/-- Modelled from the spec (§8, testable property on data availability): the
delta sequence delivered on a channel contains at least one full 11-frame
cycle with a preceding reset marker, that is, it can be split into a part
containing a non-data delta (reset marker), followed by 11 consecutive
data deltas, followed by a remainder. -/
def fullCycleDelivered (isData : Nat → Bool) (ds : List Nat) : Prop :=
  ∃ a b rest, ds = a ++ b ++ rest ∧ (∃ r ∈ a, isData r = false) ∧
    b.length = DATA_FRAME_CNT ∧ ∀ d ∈ b, isData d = true

theorem fullCycleDelivered_append (isData : Nat → Bool) (ds l : List Nat)
    (h : fullCycleDelivered isData ds) : fullCycleDelivered isData (ds ++ l) := by
  obtain ⟨a, b, rest, heq, hra, hb, hdata⟩ := h
  exact ⟨a, b, rest ++ l, by rw [heq]; simp, hra, hb, hdata⟩

theorem decoder_history (isData : Nat → Bool) (ds : List Nat) :
    ((runDeltas isData chInit ds).ready = true → fullCycleDelivered isData ds) ∧
    ((runDeltas isData chInit ds).synced = true →
      ∃ a b, ds = a ++ b ∧ (∃ r ∈ a, isData r = false) ∧
        b.length = (runDeltas isData chInit ds).frameIdx ∧ ∀ d ∈ b, isData d = true) := by
  induction ds using List.reverseRecOn with
  | nil =>
      constructor
      · intro h; simp [runDeltas, chInit] at h
      · intro h; simp [runDeltas, chInit] at h
  | append_singleton ds d ih =>
      rw [runDeltas_append]
      simp only [runDeltas]
      obtain ⟨ihReady, ihSync⟩ := ih
      by_cases hd : isData d = true
      · by_cases hs : (runDeltas isData chInit ds).synced = true
        · obtain ⟨a, b, heq, hra, hblen, hbdata⟩ := ihSync hs
          by_cases hlt : (runDeltas isData chInit ds).frameIdx < DATA_FRAME_CNT
          · by_cases hpub : (runDeltas isData chInit ds).frameIdx + 1 = DATA_FRAME_CNT
            · have hred : chDelta isData (runDeltas isData chInit ds) d =
                  { runDeltas isData chInit ds with
                      buf := (runDeltas isData chInit ds).buf.set
                        (runDeltas isData chInit ds).frameIdx d
                      frameIdx := 0
                      published := some ((runDeltas isData chInit ds).buf.set
                        (runDeltas isData chInit ds).frameIdx d)
                      ready := true } := by
                unfold chDelta
                rw [if_pos hd, if_pos hs, if_pos hlt, if_pos hpub]
              rw [hred]
              constructor
              · intro _
                exact ⟨a, b ++ [d], [], by rw [heq]; simp, hra,
                  by simp [hblen, hpub], by
                    intro x hx
                    rcases List.mem_append.mp hx with hx1 | hx2
                    · exact hbdata x hx1
                    · rw [List.mem_singleton.mp hx2]; exact hd⟩
              · intro _
                exact ⟨ds ++ [d], [], by simp, by
                  obtain ⟨r, hr, hrf⟩ := hra
                  exact ⟨r, by rw [heq]; simp [List.mem_append.mpr (Or.inl hr)], hrf⟩,
                  by simp, by simp⟩
            · have hred : chDelta isData (runDeltas isData chInit ds) d =
                  { runDeltas isData chInit ds with
                      buf := (runDeltas isData chInit ds).buf.set
                        (runDeltas isData chInit ds).frameIdx d
                      frameIdx := (runDeltas isData chInit ds).frameIdx + 1 } := by
                unfold chDelta
                rw [if_pos hd, if_pos hs, if_pos hlt, if_neg hpub]
              rw [hred]
              constructor
              · intro hready
                exact fullCycleDelivered_append isData ds [d] (ihReady hready)
              · intro _
                exact ⟨a, b ++ [d], by rw [heq]; simp, hra, by simp [hblen], by
                  intro x hx
                  rcases List.mem_append.mp hx with hx1 | hx2
                  · exact hbdata x hx1
                  · rw [List.mem_singleton.mp hx2]; exact hd⟩
          · have hred : chDelta isData (runDeltas isData chInit ds) d =
                { runDeltas isData chInit ds with frameIdx := 0 } := by
              unfold chDelta
              rw [if_pos hd, if_pos hs, if_neg hlt]
            rw [hred]
            constructor
            · intro hready
              exact fullCycleDelivered_append isData ds [d] (ihReady hready)
            · intro _
              exact ⟨ds ++ [d], [], by simp, by
                obtain ⟨r, hr, hrf⟩ := hra
                exact ⟨r, by rw [heq]; simp [List.mem_append.mpr (Or.inl hr)], hrf⟩,
                by simp, by simp⟩
        · have hred : chDelta isData (runDeltas isData chInit ds) d =
              runDeltas isData chInit ds := by
            unfold chDelta
            rw [if_pos hd, if_neg hs]
          rw [hred]
          constructor
          · intro hready
            exact fullCycleDelivered_append isData ds [d] (ihReady hready)
          · intro hsync
            exact absurd hsync hs
      · have hdf : isData d = false := by
          cases hval : isData d with
          | false => rfl
          | true => exact absurd hval hd
        rw [chDelta_reset isData _ d hdf]
        constructor
        · intro hready
          have : (runDeltas isData chInit ds).ready = true := by simpa using hready
          exact fullCycleDelivered_append isData ds [d] (ihReady this)
        · intro _
          exact ⟨ds ++ [d], [], by simp, ⟨d, by simp, hdf⟩, by simp, by simp⟩

/-- Modelled from the spec (§4.2 Channel Registry): the registry owns one
decoder state per configured channel, up to `MAX_ESCS`. -/
structure Registry where
  channels : List ChState
  deriving DecidableEq

/-- Modelled from the spec: route one edge capture `(channel, timestamp)` to
that channel's frame decoder; every other channel is untouched. -/
def onEdge (isData : Nat → Bool) (r : Registry) (i : Nat) (t : Nat) : Registry :=
  { channels := r.channels.set i (chEdge isData ((r.channels.get? i).getD chInit) t) }

/-- Deliver a sequence of edge timestamps, all on channel 0, in arrival
order. -/
def runEdgesOn0 (isData : Nat → Bool) (r : Registry) : List Nat → Registry
  | [] => r
  | t :: ts => runEdgesOn0 isData (onEdge isData r 0 t) ts

/-- Modelled from the header contract of
`getData(uint8_t index, CASTLE_RAW_DATA *dataHolder)`: returns 0 if raw data
is not available for the requested channel, a positive number otherwise. -/
def getDataRaw (r : Registry) (i : Nat) : Nat :=
  match r.channels.get? i with
  | some c => if c.ready then 1 else 0
  | none => 0

/-- Modelled from the header contract of
`getData(uint8_t index, CASTLE_ESC_DATA *dataHolder)`: the telemetry variant
first obtains the raw cycle and converts it (Telemetry Translator); it
likewise returns 0 if data is not available, a positive number otherwise, so
its availability result coincides with the raw variant's. -/
def getDataEsc (r : Registry) (i : Nat) : Nat :=
  match r.channels.get? i with
  | some c => if c.ready then 1 else 0
  | none => 0

theorem runEdgesOn0_preserves (isData : Nat → Bool) (ts : List Nat) :
    ∀ (r : Registry) (i : Nat), i ≠ 0 →
      (runEdgesOn0 isData r ts).channels.get? i = r.channels.get? i := by
  induction ts with
  | nil => intro r i _; rfl
  | cons t ts ih =>
      intro r i hi
      show (runEdgesOn0 isData (onEdge isData r 0 t) ts).channels.get? i = _
      rw [ih _ i hi]
      show (r.channels.set 0 _).get? i = r.channels.get? i
      simp only [List.get?_eq_getElem?]
      exact List.getElem?_set_ne (fun h => hi h.symm)

/-- Modelled from the spec (§3 ThrottleState): throttle source selection. -/
inductive ThrottleMode where
  | softwareGenerated : ThrottleMode
  | externalPassthrough : ThrottleMode
  deriving DecidableEq

/-- Modelled from the spec (§3 ThrottleState): armed flag, mode, current
level 0-100, pulse-width bounds in microseconds, last-update timestamp and
failure flag.  Handler invocations are recorded as emitted events (lists of
the boolean "signal valid" argument) rather than through a stored function
pointer. -/
structure ThrottleState where
  armed : Bool
  mode : ThrottleMode
  level : Nat
  throttleMin : Nat
  throttleMax : Nat
  lastUpdate : Nat
  failure : Bool
  deriving DecidableEq

/-- Outbound physical signal on the throttle line: either no pulse at all or
a pulse of the given width in microseconds. -/
inductive Signal where
  | noSignal : Signal
  | pulse : Nat → Signal
  deriving DecidableEq

/-- Modelled from the spec (§4.4 Generated mode): pulse width linearly
interpolated between `throttleMin` and `throttleMax` according to
`current level / 100`. -/
def interpolate (s : ThrottleState) : Nat :=
  s.throttleMin + (s.throttleMax - s.throttleMin) * s.level / 100

/-- Modelled from the spec (§4.4 side effects): the outbound signal as a
function of the throttle state.  While disarmed no signal is driven at all;
while armed, the idle/brake level (`throttleMin`) is driven in the Failed
sub-state and the interpolated level in the Valid sub-state. -/
def driveSignal (s : ThrottleState) : Signal :=
  if s.armed then
    if s.failure then Signal.pulse s.throttleMin
    else Signal.pulse (interpolate s)
  else Signal.noSignal

/-- Error taxonomy surfaced synchronously to the caller (spec §7). -/
inductive LibError where
  | configurationError : LibError
  | validationError : LibError
  deriving DecidableEq

/-- Modelled from the spec (§4.4 set_throttle): a level outside 0..100 is
rejected with a `ValidationError` and changes nothing; a valid level is
recorded, refreshes the last-update timestamp and, if the engine was in the
Failed sub-state, clears the failure and emits exactly one "recovered"
handler invocation. -/
def setThrottle (s : ThrottleState) (level : Nat) (now : Nat) :
    Except LibError (ThrottleState × List Bool) :=
  if 100 < level then Except.error LibError.validationError
  else Except.ok
    ({ s with level := level, lastUpdate := now, failure := false },
     if s.failure then [true] else [])

/-- Events driving the throttle engine: foreground calls (`throttleArm`,
`throttleDisarm`, `setThrottle`), periodic watchdog checks, and external
pulse captures in pass-through mode. -/
inductive TEvent where
  | arm : TEvent
  | disarm : TEvent
  | setLevel : Nat → Nat → TEvent
  | tick : Nat → TEvent
  | extPulse : Nat → Nat → TEvent

/-- Modelled from the spec (§4.4): one step of the throttle engine.  Arming
and disarming only toggle the armed flag; a rejected `setThrottle` leaves the
state unchanged and emits nothing; a watchdog check past the threshold while
not yet failed transitions to Failed and emits exactly one "failure"
invocation (edge-triggered); an external pulse in pass-through mode acts as
the level source and refreshes the watchdog. -/
def applyEvent (s : ThrottleState) : TEvent → ThrottleState × List Bool
  | TEvent.arm => ({ s with armed := true }, [])
  | TEvent.disarm => ({ s with armed := false }, [])
  | TEvent.setLevel l now =>
      match setThrottle s l now with
      | Except.error _ => (s, [])
      | Except.ok r => r
  | TEvent.tick now =>
      if s.failure = false ∧ WATCHDOG_THRESHOLD < now - s.lastUpdate then
        ({ s with failure := true }, [false])
      else (s, [])
  | TEvent.extPulse l now =>
      if s.mode = ThrottleMode.externalPassthrough then
        ({ s with level := l, lastUpdate := now, failure := false },
         if s.failure then [true] else [])
      else (s, [])

/-- Run the throttle engine over a sequence of events, collecting all handler
invocations in order. -/
def runEvents (s : ThrottleState) : List TEvent → ThrottleState × List Bool
  | [] => (s, [])
  | e :: es =>
      let r := applyEvent s e
      let r2 := runEvents r.1 es
      (r2.1, r.2 ++ r2.2)

/-- Modelled from the spec: initial throttle state after `begin`: disarmed,
level 0, no failure; software-generated mode exactly when the throttle pin
argument is `GENERATE_THROTTLE`. -/
def throttleInit (pin : Int) (tMin tMax : Nat) : ThrottleState :=
  { armed := false
    mode := if pin = GENERATE_THROTTLE then ThrottleMode.softwareGenerated
            else ThrottleMode.externalPassthrough
    level := 0
    throttleMin := tMin
    throttleMax := tMax
    lastUpdate := 0
    failure := false }

/-- Whole-engine state: the channel registry plus the throttle engine. -/
structure Engine where
  channels : List ChState
  throttle : ThrottleState
  deriving DecidableEq

/-- Modelled from the spec (§4.2 initialize, §6): `begin` with full
arguments.  Starting with more channels than the hardware-supported bound
`MAX_ESCS` fails with a `ConfigurationError` and creates no per-channel
state; otherwise all per-channel decoder states are allocated and the
throttle engine initialized. -/
def beginFull (nESC : Nat) (pin : Int) (tMin tMax : Nat) :
    Except LibError Engine :=
  if MAX_ESCS < nESC then Except.error LibError.configurationError
  else Except.ok
    { channels := List.replicate nESC chInit, throttle := throttleInit pin tMin tMax }

/-- Modelled from the header doc of `begin(uint8_t nESC, int throttlePinNumber)`:
two-argument overload, using the default pulse-width bounds. -/
def beginTwo (nESC : Nat) (pin : Int) : Except LibError Engine :=
  beginFull nESC pin DEFAULT_THROTTLE_MIN DEFAULT_THROTTLE_MAX

/-- Modelled from the header doc of `begin(uint8_t nESC)`: one-argument
overload: the throttle signal is software-generated by the library. -/
def beginOne (nESC : Nat) : Except LibError Engine :=
  beginFull nESC GENERATE_THROTTLE DEFAULT_THROTTLE_MIN DEFAULT_THROTTLE_MAX

/-- Modelled from the header doc of `begin()`: default configuration is one
connected ESC with software-generated throttle. -/
def beginZero : Except LibError Engine :=
  beginFull 1 GENERATE_THROTTLE DEFAULT_THROTTLE_MIN DEFAULT_THROTTLE_MAX

theorem applyEvent_tick_failed (s : ThrottleState) (t : Nat)
    (h : s.failure = true) : applyEvent s (TEvent.tick t) = (s, []) := by
  simp only [applyEvent]
  rw [if_neg (by simp [h])]

theorem runEvents_ticks_failed (s : ThrottleState) (ts : List Nat)
    (h : s.failure = true) : runEvents s (ts.map TEvent.tick) = (s, []) := by
  induction ts with
  | nil => rfl
  | cons t ts ih =>
      simp only [List.map_cons, runEvents, applyEvent_tick_failed s t h, ih]
      rfl

theorem runEvents_ticks_fire (s : ThrottleState) (t : Nat) (ts : List Nat)
    (hfail : s.failure = false)
    (ht : s.lastUpdate + WATCHDOG_THRESHOLD < t) :
    runEvents s ((t :: ts).map TEvent.tick) =
      ({ s with failure := true }, [false]) := by
  have hstep : applyEvent s (TEvent.tick t) = ({ s with failure := true }, [false]) := by
    simp only [applyEvent]
    rw [if_pos (And.intro hfail (by
      simp only [WATCHDOG_THRESHOLD] at ht ⊢
      omega))]
  simp only [List.map_cons, runEvents, hstep,
    runEvents_ticks_failed { s with failure := true } ts rfl]
  rfl

theorem fullCycleDelivered_nil (isData : Nat → Bool) :
    ¬ fullCycleDelivered isData [] := by
  rintro ⟨a, b, rest, heq, ⟨r, hr, _⟩, _, _⟩
  obtain ⟨h2, -⟩ := List.append_eq_nil.mp heq.symm
  obtain ⟨ha, -⟩ := List.append_eq_nil.mp h2
  subst ha
  exact List.not_mem_nil r hr

/-- C1: for every reachable state of the throttle engine (any event sequence
run from the initial state of any configuration) in which `armed = false`,
the outbound throttle signal is idle (no pulse is driven at all), regardless
of the current level, the failure flag, or the mode. -/
theorem disarmed_never_drives_signal (pin : Int) (tMin tMax : Nat)
    (evs : List TEvent)
    (h : (runEvents (throttleInit pin tMin tMax) evs).1.armed = false) :
    driveSignal (runEvents (throttleInit pin tMin tMax) evs).1 =
      Signal.noSignal := by
  unfold driveSignal
  rw [if_neg (by simp [h])]

theorem disarmed_never_drives_signal_witness :
    (runEvents (throttleInit GENERATE_THROTTLE DEFAULT_THROTTLE_MIN
      DEFAULT_THROTTLE_MAX)
      [TEvent.arm, TEvent.setLevel 100 0, TEvent.disarm]).1.armed = false ∧
    driveSignal (runEvents (throttleInit GENERATE_THROTTLE DEFAULT_THROTTLE_MIN
      DEFAULT_THROTTLE_MAX)
      [TEvent.arm, TEvent.setLevel 100 0, TEvent.disarm]).1 = Signal.noSignal :=
  ⟨by decide, disarmed_never_drives_signal GENERATE_THROTTLE DEFAULT_THROTTLE_MIN
    DEFAULT_THROTTLE_MAX [TEvent.arm, TEvent.setLevel 100 0, TEvent.disarm]
    (by decide)⟩

/-- C2: in every reachable state in which the throttle engine is in the
Failed sub-state (failure flag set while armed), the physical output driven
is the idle/brake pulse (`throttleMin`); it is never the pulse interpolated
from the last-known throttle level (whenever that differs from idle/brake)
and never the full-throttle pulse (whenever full throttle differs from
idle/brake). -/
theorem failed_substate_drives_idle_brake (pin : Int) (tMin tMax : Nat)
    (evs : List TEvent)
    (h1 : (runEvents (throttleInit pin tMin tMax) evs).1.armed = true)
    (h2 : (runEvents (throttleInit pin tMin tMax) evs).1.failure = true) :
    driveSignal (runEvents (throttleInit pin tMin tMax) evs).1 =
      Signal.pulse (runEvents (throttleInit pin tMin tMax) evs).1.throttleMin ∧
    (interpolate (runEvents (throttleInit pin tMin tMax) evs).1 ≠
        (runEvents (throttleInit pin tMin tMax) evs).1.throttleMin →
      driveSignal (runEvents (throttleInit pin tMin tMax) evs).1 ≠
        Signal.pulse (interpolate (runEvents (throttleInit pin tMin tMax) evs).1)) ∧
    ((runEvents (throttleInit pin tMin tMax) evs).1.throttleMax ≠
        (runEvents (throttleInit pin tMin tMax) evs).1.throttleMin →
      driveSignal (runEvents (throttleInit pin tMin tMax) evs).1 ≠
        Signal.pulse (runEvents (throttleInit pin tMin tMax) evs).1.throttleMax) := by
  have hds : driveSignal (runEvents (throttleInit pin tMin tMax) evs).1 =
      Signal.pulse (runEvents (throttleInit pin tMin tMax) evs).1.throttleMin := by
    unfold driveSignal
    rw [if_pos h1, if_pos h2]
  refine ⟨hds, ?_, ?_⟩
  · intro hne heq
    rw [hds] at heq
    exact hne (Signal.pulse.inj heq).symm
  · intro hne heq
    rw [hds] at heq
    exact hne (Signal.pulse.inj heq).symm

theorem failed_substate_drives_idle_brake_witness :
    (runEvents (throttleInit GENERATE_THROTTLE DEFAULT_THROTTLE_MIN
      DEFAULT_THROTTLE_MAX) [TEvent.arm, TEvent.tick 1001]).1.armed = true ∧
    (runEvents (throttleInit GENERATE_THROTTLE DEFAULT_THROTTLE_MIN
      DEFAULT_THROTTLE_MAX) [TEvent.arm, TEvent.tick 1001]).1.failure = true ∧
    driveSignal (runEvents (throttleInit GENERATE_THROTTLE DEFAULT_THROTTLE_MIN
      DEFAULT_THROTTLE_MAX) [TEvent.arm, TEvent.tick 1001]).1 =
      Signal.pulse (runEvents (throttleInit GENERATE_THROTTLE DEFAULT_THROTTLE_MIN
        DEFAULT_THROTTLE_MAX) [TEvent.arm, TEvent.tick 1001]).1.throttleMin :=
  ⟨by decide, by decide,
    (failed_substate_drives_idle_brake GENERATE_THROTTLE DEFAULT_THROTTLE_MIN
      DEFAULT_THROTTLE_MAX [TEvent.arm, TEvent.tick 1001]
      (by decide) (by decide)).1⟩

/-- C3: from the initial decoder state, after any sequence of deltas the
in-progress frame index stays strictly below `DATA_FRAME_CNT = 11` (so it is
in the range 0..10 at the moment of every write into the ticks buffer, whose
length stays 11), and a delta outside the data envelope (reset marker or
malformed timing) never writes anything: it leaves the buffer and the
published cycle untouched and forces resynchronization, resetting the frame
index to 0 and discarding the in-progress cycle. -/
theorem frame_index_always_in_range (isData : Nat → Bool) (ds : List Nat)
    (d : Nat) (hd : isData d = false) :
    (runDeltas isData chInit ds).frameIdx < DATA_FRAME_CNT ∧
    (runDeltas isData chInit ds).buf.length = DATA_FRAME_CNT ∧
    (chDelta isData (runDeltas isData chInit ds) d).frameIdx = 0 ∧
    (chDelta isData (runDeltas isData chInit ds) d).buf =
      (runDeltas isData chInit ds).buf ∧
    (chDelta isData (runDeltas isData chInit ds) d).published =
      (runDeltas isData chInit ds).published := by
  have hinv := runDeltas_invariant isData ds chInit (by decide) (by decide)
  refine ⟨hinv.1, hinv.2, ?_, ?_, ?_⟩ <;>
    rw [chDelta_reset isData (runDeltas isData chInit ds) d hd]

theorem frame_index_always_in_range_witness :
    ((fun x => decide (x ≤ 2000)) 7777 = false) ∧
    ((runDeltas (fun x => decide (x ≤ 2000)) chInit [5000, 10, 20, 30]).frameIdx <
      DATA_FRAME_CNT ∧
     (runDeltas (fun x => decide (x ≤ 2000)) chInit
        [5000, 10, 20, 30]).buf.length = DATA_FRAME_CNT ∧
     (chDelta (fun x => decide (x ≤ 2000))
        (runDeltas (fun x => decide (x ≤ 2000)) chInit [5000, 10, 20, 30])
        7777).frameIdx = 0 ∧
     (chDelta (fun x => decide (x ≤ 2000))
        (runDeltas (fun x => decide (x ≤ 2000)) chInit [5000, 10, 20, 30])
        7777).buf =
       (runDeltas (fun x => decide (x ≤ 2000)) chInit [5000, 10, 20, 30]).buf ∧
     (chDelta (fun x => decide (x ≤ 2000))
        (runDeltas (fun x => decide (x ≤ 2000)) chInit [5000, 10, 20, 30])
        7777).published =
       (runDeltas (fun x => decide (x ≤ 2000)) chInit
         [5000, 10, 20, 30]).published) :=
  ⟨by decide, frame_index_always_in_range (fun x => decide (x ≤ 2000))
    [5000, 10, 20, 30] 7777 (by decide)⟩

/-- C4: from any decoder state with a full-size ticks buffer, a reset marker
followed by exactly 11 data deltas publishes those 11 deltas, in delivery
order, as the channel's latest raw cycle, marks the cycle ready, and leaves
the frame index at 0 afterwards. -/
theorem reset_then_full_cycle_published (isData : Nat → Bool) (c : ChState)
    (r : Nat) (ds : List Nat) (hb : c.buf.length = DATA_FRAME_CNT)
    (hr : isData r = false) (hlen : ds.length = DATA_FRAME_CNT)
    (hdata : ∀ d ∈ ds, isData d = true) :
    (runDeltas isData c (r :: ds)).published = some ds ∧
    (runDeltas isData c (r :: ds)).frameIdx = 0 ∧
    (runDeltas isData c (r :: ds)).ready = true := by
  rw [runDeltas_reset_cycle isData c r ds hb hr hlen hdata]
  exact ⟨rfl, rfl, rfl⟩

theorem reset_then_full_cycle_published_witness :
    (chInit.buf.length = DATA_FRAME_CNT) ∧
    ((fun x => decide (x ≤ 2000)) 5000 = false) ∧
    ([1000, 500, 20, 10, 1500, 750, 300, 50, 10, 25, 30].length =
      DATA_FRAME_CNT) ∧
    (∀ d ∈ [1000, 500, 20, 10, 1500, 750, 300, 50, 10, 25, 30],
      (fun x => decide (x ≤ 2000)) d = true) ∧
    ((runDeltas (fun x => decide (x ≤ 2000)) chInit
        (5000 :: [1000, 500, 20, 10, 1500, 750, 300, 50, 10, 25, 30])).published =
      some [1000, 500, 20, 10, 1500, 750, 300, 50, 10, 25, 30] ∧
     (runDeltas (fun x => decide (x ≤ 2000)) chInit
        (5000 :: [1000, 500, 20, 10, 1500, 750, 300, 50, 10, 25, 30])).frameIdx = 0 ∧
     (runDeltas (fun x => decide (x ≤ 2000)) chInit
        (5000 :: [1000, 500, 20, 10, 1500, 750, 300, 50, 10, 25, 30])).ready = true) :=
  ⟨by decide, by decide, by decide, by decide,
    reset_then_full_cycle_published (fun x => decide (x ≤ 2000)) chInit 5000
      [1000, 500, 20, 10, 1500, 750, 300, 50, 10, 25, 30]
      (by decide) (by decide) (by decide) (by decide)⟩

/-- C5: with the watchdog threshold exceeded, a nonempty run of watchdog
checks while not yet failed (software-generated mode) emits exactly one
failure-onset handler invocation (argument `false`), not one per check, and
leaves the engine in the Failed sub-state; a subsequent in-range `setThrottle`
call emits exactly one recovery invocation (argument `true`) and clears the
failure. -/
theorem watchdog_failure_exactly_once (s : ThrottleState) (ts : List Nat)
    (l now : Nat) (_hmode : s.mode = ThrottleMode.softwareGenerated)
    (hfail : s.failure = false) (hne : ts ≠ [])
    (hall : ∀ t ∈ ts, s.lastUpdate + WATCHDOG_THRESHOLD < t) (hl : l ≤ 100) :
    (runEvents s (ts.map TEvent.tick)).2 = [false] ∧
    (runEvents s (ts.map TEvent.tick)).1.failure = true ∧
    (applyEvent (runEvents s (ts.map TEvent.tick)).1
      (TEvent.setLevel l now)).2 = [true] ∧
    (applyEvent (runEvents s (ts.map TEvent.tick)).1
      (TEvent.setLevel l now)).1.failure = false := by
  cases ts with
  | nil => exact absurd rfl hne
  | cons t ts2 =>
      have hfire := runEvents_ticks_fire s t ts2 hfail
        (hall t (List.mem_cons_self t ts2))
      rw [hfire]
      have hset : applyEvent { s with failure := true } (TEvent.setLevel l now) =
          ({ s with level := l, lastUpdate := now, failure := false }, [true]) := by
        simp only [applyEvent, setThrottle]
        rw [if_neg (by omega)]
        simp
      rw [hset]
      exact ⟨rfl, rfl, rfl, rfl⟩

theorem watchdog_failure_exactly_once_witness :
    ((throttleInit GENERATE_THROTTLE DEFAULT_THROTTLE_MIN
        DEFAULT_THROTTLE_MAX).mode = ThrottleMode.softwareGenerated) ∧
    ((throttleInit GENERATE_THROTTLE DEFAULT_THROTTLE_MIN
        DEFAULT_THROTTLE_MAX).failure = false) ∧
    ([1001, 1100, 1200] ≠ ([] : List Nat)) ∧
    (∀ t ∈ [1001, 1100, 1200],
      (throttleInit GENERATE_THROTTLE DEFAULT_THROTTLE_MIN
        DEFAULT_THROTTLE_MAX).lastUpdate + WATCHDOG_THRESHOLD < t) ∧
    (50 ≤ 100) ∧
    ((runEvents (throttleInit GENERATE_THROTTLE DEFAULT_THROTTLE_MIN
        DEFAULT_THROTTLE_MAX) ([1001, 1100, 1200].map TEvent.tick)).2 = [false] ∧
     (runEvents (throttleInit GENERATE_THROTTLE DEFAULT_THROTTLE_MIN
        DEFAULT_THROTTLE_MAX) ([1001, 1100, 1200].map TEvent.tick)).1.failure = true ∧
     (applyEvent (runEvents (throttleInit GENERATE_THROTTLE DEFAULT_THROTTLE_MIN
        DEFAULT_THROTTLE_MAX) ([1001, 1100, 1200].map TEvent.tick)).1
        (TEvent.setLevel 50 2000)).2 = [true] ∧
     (applyEvent (runEvents (throttleInit GENERATE_THROTTLE DEFAULT_THROTTLE_MIN
        DEFAULT_THROTTLE_MAX) ([1001, 1100, 1200].map TEvent.tick)).1
        (TEvent.setLevel 50 2000)).1.failure = false) :=
  ⟨by decide, by decide, by decide, by decide, by decide,
    watchdog_failure_exactly_once
      (throttleInit GENERATE_THROTTLE DEFAULT_THROTTLE_MIN DEFAULT_THROTTLE_MAX)
      [1001, 1100, 1200] 50 2000 (by decide) (by decide) (by decide)
      (by decide) (by decide)⟩

/-- C6: for a channel, both `getData` variants (raw and telemetry) return 0
("data not available") as long as no full 11-frame cycle with a preceding
reset marker has been delivered on that channel, and return a positive value
once a reset marker followed by 11 data deltas has completed a cycle;
unavailability is a returned value, not a raised error. -/
theorem getData_unavailable_before_first_cycle (isData : Nat → Bool)
    (ds es : List Nat) (r : Nat)
    (hnf : ¬ fullCycleDelivered isData ds)
    (hr : isData r = false) (hlen : es.length = DATA_FRAME_CNT)
    (hdata : ∀ d ∈ es, isData d = true) :
    getDataRaw ⟨[runDeltas isData chInit ds]⟩ 0 = 0 ∧
    getDataEsc ⟨[runDeltas isData chInit ds]⟩ 0 = 0 ∧
    0 < getDataRaw ⟨[runDeltas isData chInit (r :: es)]⟩ 0 ∧
    0 < getDataEsc ⟨[runDeltas isData chInit (r :: es)]⟩ 0 := by
  have hready : (runDeltas isData chInit ds).ready = false := by
    cases hval : (runDeltas isData chInit ds).ready with
    | false => rfl
    | true => exact absurd ((decoder_history isData ds).1 hval) hnf
  have hcycle := runDeltas_reset_cycle isData chInit r es (by decide) hr hlen hdata
  refine ⟨?_, ?_, ?_, ?_⟩
  · unfold getDataRaw
    simp [hready]
  · unfold getDataEsc
    simp [hready]
  · unfold getDataRaw
    rw [hcycle]
    simp
  · unfold getDataEsc
    rw [hcycle]
    simp

theorem getData_unavailable_before_first_cycle_witness :
    (¬ fullCycleDelivered (fun x => decide (x ≤ 2000)) []) ∧
    ((fun x => decide (x ≤ 2000)) 9000 = false) ∧
    ([40, 41, 42, 43, 44, 45, 46, 47, 48, 49, 50].length = DATA_FRAME_CNT) ∧
    (∀ d ∈ [40, 41, 42, 43, 44, 45, 46, 47, 48, 49, 50],
      (fun x => decide (x ≤ 2000)) d = true) ∧
    (getDataRaw ⟨[runDeltas (fun x => decide (x ≤ 2000)) chInit []]⟩ 0 = 0 ∧
     getDataEsc ⟨[runDeltas (fun x => decide (x ≤ 2000)) chInit []]⟩ 0 = 0 ∧
     0 < getDataRaw ⟨[runDeltas (fun x => decide (x ≤ 2000)) chInit
        (9000 :: [40, 41, 42, 43, 44, 45, 46, 47, 48, 49, 50])]⟩ 0 ∧
     0 < getDataEsc ⟨[runDeltas (fun x => decide (x ≤ 2000)) chInit
        (9000 :: [40, 41, 42, 43, 44, 45, 46, 47, 48, 49, 50])]⟩ 0) :=
  ⟨fullCycleDelivered_nil (fun x => decide (x ≤ 2000)), by decide, by decide,
    by decide,
    getData_unavailable_before_first_cycle (fun x => decide (x ≤ 2000)) []
      [40, 41, 42, 43, 44, 45, 46, 47, 48, 49, 50] 9000
      (fullCycleDelivered_nil (fun x => decide (x ≤ 2000)))
      (by decide) (by decide) (by decide)⟩

/-- C7: starting the engine with more channels than the hardware-supported
bound `MAX_ESCS = 2` fails with a `ConfigurationError`, and no engine (hence
no partial per-channel state) is created. -/
theorem begin_rejects_excess_channels (nESC : Nat) (pin : Int)
    (tMin tMax : Nat) (e : Engine) (h : MAX_ESCS < nESC) :
    beginFull nESC pin tMin tMax = Except.error LibError.configurationError ∧
    beginFull nESC pin tMin tMax ≠ Except.ok e := by
  have h1 : beginFull nESC pin tMin tMax =
      Except.error LibError.configurationError := by
    unfold beginFull
    rw [if_pos h]
  refine ⟨h1, ?_⟩
  rw [h1]
  simp

theorem begin_rejects_excess_channels_witness :
    (MAX_ESCS < 3) ∧
    (beginFull 3 GENERATE_THROTTLE DEFAULT_THROTTLE_MIN DEFAULT_THROTTLE_MAX =
      Except.error LibError.configurationError ∧
     beginFull 3 GENERATE_THROTTLE DEFAULT_THROTTLE_MIN DEFAULT_THROTTLE_MAX ≠
      Except.ok (Engine.mk [] (throttleInit GENERATE_THROTTLE
        DEFAULT_THROTTLE_MIN DEFAULT_THROTTLE_MAX))) :=
  ⟨by decide,
    begin_rejects_excess_channels 3 GENERATE_THROTTLE DEFAULT_THROTTLE_MIN
      DEFAULT_THROTTLE_MAX
      (Engine.mk [] (throttleInit GENERATE_THROTTLE
        DEFAULT_THROTTLE_MIN DEFAULT_THROTTLE_MAX))
      (by decide)⟩

/-- C8: a `setThrottle` call with a level outside 0..100 is rejected with a
`ValidationError` rather than clamped: the engine state is unchanged by the
rejected call, and in particular the recorded current level is unchanged. -/
theorem setThrottle_rejects_out_of_range (s : ThrottleState) (l now : Nat)
    (h : 100 < l) :
    setThrottle s l now = Except.error LibError.validationError ∧
    (applyEvent s (TEvent.setLevel l now)).1 = s ∧
    (applyEvent s (TEvent.setLevel l now)).1.level = s.level := by
  have h1 : setThrottle s l now = Except.error LibError.validationError := by
    unfold setThrottle
    rw [if_pos h]
  refine ⟨h1, ?_, ?_⟩ <;> simp [applyEvent, h1]

theorem setThrottle_rejects_out_of_range_witness :
    (100 < 150) ∧
    (setThrottle (throttleInit GENERATE_THROTTLE DEFAULT_THROTTLE_MIN
        DEFAULT_THROTTLE_MAX) 150 5 = Except.error LibError.validationError ∧
     (applyEvent (throttleInit GENERATE_THROTTLE DEFAULT_THROTTLE_MIN
        DEFAULT_THROTTLE_MAX) (TEvent.setLevel 150 5)).1 =
       throttleInit GENERATE_THROTTLE DEFAULT_THROTTLE_MIN DEFAULT_THROTTLE_MAX ∧
     (applyEvent (throttleInit GENERATE_THROTTLE DEFAULT_THROTTLE_MIN
        DEFAULT_THROTTLE_MAX) (TEvent.setLevel 150 5)).1.level =
       (throttleInit GENERATE_THROTTLE DEFAULT_THROTTLE_MIN
        DEFAULT_THROTTLE_MAX).level) :=
  ⟨by decide,
    setThrottle_rejects_out_of_range (throttleInit GENERATE_THROTTLE
      DEFAULT_THROTTLE_MIN DEFAULT_THROTTLE_MAX) 150 5 (by decide)⟩

/-- C9: a sequence of edge events delivered on channel 0 leaves every other
channel's state completely unchanged: its latest raw cycle, frame index,
previous-edge timestamp, ticks buffer and cycle-ready flag are identical
before and after. -/
theorem channel0_edges_leave_others_unchanged (isData : Nat → Bool)
    (r : Registry) (ts : List Nat) (i : Nat) (hi : i ≠ 0) :
    (runEdgesOn0 isData r ts).channels.get? i = r.channels.get? i :=
  runEdgesOn0_preserves isData ts r i hi

theorem channel0_edges_leave_others_unchanged_witness :
    ((1 : Nat) ≠ 0) ∧
    (runEdgesOn0 (fun x => decide (x ≤ 2000)) ⟨[chInit, chInit]⟩
      [100, 300, 50000]).channels.get? 1 =
      (Registry.mk [chInit, chInit]).channels.get? 1 :=
  ⟨by decide,
    channel0_edges_leave_others_unchanged (fun x => decide (x ≤ 2000))
      ⟨[chInit, chInit]⟩ [100, 300, 50000] 1 (by decide)⟩

/-- C10: the zero-argument `begin` is equivalent to `begin 1 GENERATE_THROTTLE`
and the one-argument `begin nESC` is equivalent to
`begin nESC GENERATE_THROTTLE`: the overloads produce the same resulting
engine state and return value as the two-argument overload with the
documented defaults. -/
theorem begin_overloads_use_documented_defaults :
    beginZero = beginTwo 1 GENERATE_THROTTLE ∧
    ∀ nESC : Nat, beginOne nESC = beginTwo nESC GENERATE_THROTTLE :=
  ⟨rfl, fun _ => rfl⟩

end CastleLinkLive
